import Mathlib

/-!
# glazetray: the GlazeWM protocol client of `glazetray.go`

A shallow embedding of the websocket client in `src/glazetray.go`
(`subscribeToEvents`, `handleEvent`, `queryMonitors`,
`fetchAndSetFocusedWorkspace` and the read loop of `connectWebSocket`),
followed by the properties of it that the specification states.

Modelling decisions.

* A value decoded by `encoding/json` into an `interface{}` is a `JVal`:
  `nil`, `bool`, `float64`, `string`, `[]interface{}` or
  `map[string]interface{}`.  The code never inspects a number, so the
  payload of `JVal.num` is immaterial.  A Go map is an association list
  read with `JMap.get`; indexing a Go map at an absent key yields the nil
  interface, which is also what a JSON `null` decodes to.
* An inbound frame is represented by what `json.Unmarshal` makes of it:
  either a decode error or a `ServerMessage`.
* The connection and the tray icon are the explicit state `World`.  The
  frames still to arrive form a finite list; once it is exhausted the
  connection is closed and every `ReadMessage` returns an error (as the
  websocket library does after a close).  Each `WriteMessage` call is
  logged, and whether it fails is read off a list of outcomes.
* A failed unchecked type assertion or an index out of range is a Go
  panic; nothing in the program recovers from one, so it ends the run:
  `Result.panicked`.
* The mutex of `queryMonitors` is not modelled: every call of it is made
  from the one goroutine that runs `connectWebSocket`.
-/

namespace GlazeTray

/-! ## Data model -/

/-- Decoded JSON value, the dynamic content of a Go `interface{}`. -/
inductive JVal where
  | null
  | bool (b : Bool)
  | num (n : Int)
  | str (s : String)
  | arr (xs : List JVal)
  | obj (kvs : List (String × JVal))

/-- Go `map[string]interface{}`, as an association list. -/
abbrev JMap := List (String × JVal)

/-- Go map indexing `m[k]`: the nil interface when the key is absent. -/
def JMap.get (m : JMap) (k : String) : JVal :=
  (m.lookup k).getD JVal.null

/-- Go `v != nil` for an interface value. -/
def JVal.notNil : JVal → Bool
  | .null => false
  | _ => true

/-- Go `v.(map[string]interface{})` in its comma-ok form. -/
def JVal.asMap : JVal → Option JMap
  | .obj kvs => some kvs
  | _ => none

/-- Go `v.([]interface{})` in its comma-ok form. -/
def JVal.asSlice : JVal → Option (List JVal)
  | .arr xs => some xs
  | _ => none

/-- Go `v.(string)` in its comma-ok form. -/
def JVal.asString : JVal → Option String
  | .str s => some s
  | _ => none

/-- Go `b, _ := v.(bool)`: the zero value `false` when `v` is no bool. -/
def JVal.boolOrFalse : JVal → Bool
  | .bool b => b
  | _ => false

/-- The struct `ServerMessage`. -/
structure ServerMessage where
  messageType : String
  clientMessage : String
  data : JVal
  error : JVal
  success : Bool
  subscriptionId : String

/-- An inbound frame, identified with the outcome of decoding it. -/
inductive Frame where
  | malformed
  | decoded (m : ServerMessage)

/-- The call `json.Unmarshal(message, &event)`: `none` is a decode error. -/
def unmarshal : Frame → Option ServerMessage
  | .malformed => none
  | .decoded m => some m

/-- The connection, the tray icon and a count of the queries made. -/
structure World where
  /-- frames still to arrive, in order; after them the connection is closed -/
  inbound : List Frame
  /-- whether each coming `WriteMessage` fails; when exhausted, writes succeed -/
  writeErrs : List Bool
  /-- texts passed to `WriteMessage`, oldest first -/
  written : List String
  /-- keys passed to `loadIcon`, oldest first; the last one is displayed -/
  icons : List String
  /-- number of calls of `queryMonitors` so far -/
  queries : Nat

/-- How a procedure ends: it returns, or a Go panic ends the process. -/
inductive Result where
  | returned (w : World)
  | panicked (w : World)

/-- The state in which a procedure ended. -/
def Result.world : Result → World
  | .returned w => w
  | .panicked w => w

/-- The three errors `queryMonitors` returns. -/
inductive QueryError where
  | send
  | read
  | unmarshal

/-! ## Transport and tray primitives -/

/-- The call `loadIcon(name)`: the tray shows the icon with this key. -/
def loadIcon (name : String) (w : World) : World :=
  { w with icons := w.icons ++ [name] }

/-- The call `wsConn.WriteMessage(websocket.TextMessage, []byte(text))`;
the boolean is `true` when the write returned an error. -/
def writeMessage (text : String) (w : World) : Bool × World :=
  (w.writeErrs.headD false,
   { w with written := w.written ++ [text], writeErrs := w.writeErrs.tail })

/-! ## The program -/

/-- The function `subscribeToEvents`. -/
def subscribeToEvents (events : List String) (w : World) : Result :=
  match events with
  | [] => .panicked w
  | e0 :: rest =>
    let subCmd := rest.foldl (fun acc event => acc ++ (" " ++ event)) ("sub --events " ++ e0)
    .returned (writeMessage subCmd w).2

/-- The `for` loop of `queryMonitors`, over the frames still to arrive:
its result and the frames left unread. -/
def queryMonitorsLoop (message : String) :
    List Frame → Except QueryError JMap × List Frame
  | [] => (.error .read, [])
  | reply :: rest =>
    match unmarshal reply with
    | none => (.error .unmarshal, rest)
    | some response =>
      if response.messageType = "client_response" ∧ response.clientMessage = message then
        if response.data.notNil then
          match response.data.asMap with
          | some monitors => (.ok monitors, rest)
          | none => queryMonitorsLoop message rest
        else queryMonitorsLoop message rest
      else queryMonitorsLoop message rest

/-- The function `queryMonitors`. -/
def queryMonitors (w : World) : Except QueryError JMap × World :=
  let w0 := { w with queries := w.queries + 1 }
  let message := "query monitors"
  match writeMessage message w0 with
  | (true, w1) => (.error .send, w1)
  | (false, w1) =>
    let r := queryMonitorsLoop message w1.inbound
    (r.1, { w1 with inbound := r.2 })

/-- Outcome of a traversal loop of `fetchAndSetFocusedWorkspace`. -/
inductive Scan where
  | found (name : String)
  | notFound
  | panic

/-- The inner loop `for _, workspace := range workspaces`. -/
def scanWorkspaces : List JVal → Scan
  | [] => .notFound
  | workspace :: rest =>
    match workspace.asMap with
    | none => .panic
    | some workspaceMap =>
      if (workspaceMap.get "hasFocus").boolOrFalse then
        match (workspaceMap.get "name").asString with
        | some name => .found name
        | none => scanWorkspaces rest
      else scanWorkspaces rest

/-- The outer loop `for _, monitor := range monitors`. -/
def scanMonitors : List JVal → Scan
  | [] => .notFound
  | monitor :: rest =>
    match monitor.asMap with
    | none => .panic
    | some monitorMap =>
      match (monitorMap.get "children").asSlice with
      | some workspaces =>
        match scanWorkspaces workspaces with
        | .found name => .found name
        | .panic => .panic
        | .notFound => scanMonitors rest
      | none => scanMonitors rest

/-- The function `fetchAndSetFocusedWorkspace`. -/
def fetchAndSetFocusedWorkspace (w : World) : Result :=
  match queryMonitors w with
  | (.error _, w1) => .returned (loadIcon "default" w1)
  | (.ok monitorsData, w1) =>
    match (monitorsData.get "monitors").asSlice with
    | none => .panicked w1
    | some monitors =>
      match scanMonitors monitors with
      | .found name => .returned (loadIcon name w1)
      | .panic => .panicked w1
      | .notFound => .returned (loadIcon "default" w1)

/-- The function `handleEvent`. -/
def handleEvent (message : Frame) (w : World) : Result :=
  match unmarshal message with
  | none => .returned w
  | some event =>
    if event.messageType = "event_subscription" then
      fetchAndSetFocusedWorkspace w
    else .returned w

/-- The read loop of `connectWebSocket`, with a bound on the number of
iterations; `none` when the bound is reached before the loop ends. -/
def readLoop : Nat → World → Option Result
  | 0, _ => none
  | fuel + 1, w =>
    match w.inbound with
    | [] => some (.returned w)
    | message :: rest =>
      match handleEvent message { w with inbound := rest } with
      | .panicked w1 => some (.panicked w1)
      | .returned w1 => readLoop fuel w1

/-- The function `connectWebSocket` once the dial has succeeded. -/
def connectWebSocket (w : World) : Option Result :=
  match fetchAndSetFocusedWorkspace w with
  | .panicked w1 => some (.panicked w1)
  | .returned w1 =>
    match subscribeToEvents ["focus_changed"] w1 with
    | .panicked w2 => some (.panicked w2)
    | .returned w2 => readLoop (w2.inbound.length + 1) w2

/-! ## The documented topology shape

`{ monitors: [ { children: [ { name: string, hasFocus: boolean }, ... ] }, ... ] }`,
read off a decoded payload.  Further keys are allowed at every level. -/

/-- A topology: per monitor, in order, its workspaces `(name, hasFocus)`. -/
abbrev Topology := List (List (String × Bool))

/-- A workspace record: a mapping with a string `name` and a boolean `hasFocus`. -/
def workspaceOf : JVal → Option (String × Bool)
  | .obj kvs =>
    match JMap.get kvs "name", JMap.get kvs "hasFocus" with
    | .str n, .bool b => some (n, b)
    | _, _ => none
  | _ => none

/-- A list of workspace records. -/
def workspacesOf : List JVal → Option (List (String × Bool))
  | [] => some []
  | v :: vs =>
    match workspaceOf v, workspacesOf vs with
    | some x, some xs => some (x :: xs)
    | _, _ => none

/-- A monitor record: a mapping whose `children` is a list of workspace records. -/
def monitorOf : JVal → Option (List (String × Bool))
  | .obj kvs =>
    match JMap.get kvs "children" with
    | .arr ws => workspacesOf ws
    | _ => none
  | _ => none

/-- A list of monitor records. -/
def monitorsOf : List JVal → Option Topology
  | [] => some []
  | v :: vs =>
    match monitorOf v, monitorsOf vs with
    | some x, some xs => some (x :: xs)
    | _, _ => none

/-- The topology a payload of the documented shape stands for. -/
def topologyOf (data : JMap) : Option Topology :=
  match data.get "monitors" with
  | .arr ms => monitorsOf ms
  | _ => none

/-- Name of the first workspace with the focus flag set, in
monitor-then-workspace order. -/
def firstFocused (t : Topology) : Option String :=
  (t.flatten.find? (fun ws => ws.2)).map (fun ws => ws.1)

/-- The outcome of a traversal that selects the given name, if any. -/
def Scan.ofChoice : Option String → Scan
  | some name => .found name
  | none => .notFound

/-! ## Notions the properties are stated with -/

/-- Number of frames of kind `event_subscription` among the given ones. -/
def eventFrames : List Frame → Nat
  | [] => 0
  | .malformed :: rest => eventFrames rest
  | .decoded m :: rest =>
    if m.messageType = "event_subscription" then eventFrames rest + 1 else eventFrames rest

/-- What the traversal does at an entry it reaches. -/
inductive Visit where
  | selects (name : String)
  | passes
  | notMapping

/-- At a workspace entry: a mapping whose `hasFocus` is `true` and whose
`name` is a string is selected under that name; any other mapping (not
focused, or focused with a name that is missing or not a string) is passed
over. -/
def visitWorkspace : JVal → Visit
  | .obj kvs =>
    match JMap.get kvs "hasFocus", JMap.get kvs "name" with
    | .bool true, .str n => .selects n
    | _, _ => .passes
  | _ => .notMapping

/-- At a monitor entry: a mapping whose `children` is a list has its
workspace entries visited in order; a mapping whose `children` is missing
or not a list is passed over, no entry of it being visited. -/
def visitMonitor : JVal → List Visit
  | .obj kvs =>
    match JMap.get kvs "children" with
    | .arr ws => ws.map visitWorkspace
    | _ => []
  | _ => [.notMapping]

/-- The entries of a `monitors` list in monitor-then-workspace order. -/
def visits (monitors : List JVal) : List Visit :=
  (monitors.map visitMonitor).flatten

/-- Where a traversal with the given visits stops: at the first one that
is not passed over. -/
def Scan.ofVisits : List Visit → Scan
  | [] => .notFound
  | .selects name :: _ => .found name
  | .passes :: rest => Scan.ofVisits rest
  | .notMapping :: _ => .panic

/-! ## Sample frames and states -/

/-- A workspace record `{name, hasFocus}`. -/
def workspace (name : String) (hasFocus : Bool) : JVal :=
  .obj [("name", .str name), ("hasFocus", .bool hasFocus)]

/-- A monitor record `{children}`. -/
def monitor (children : List JVal) : JVal :=
  .obj [("children", .arr children)]

/-- A payload `{monitors}`. -/
def payload (monitors : List JVal) : JMap :=
  [("monitors", .arr monitors)]

/-- The reply of the server to the command `query monitors`, carrying `data`. -/
def monitorsReply (data : JVal) : Frame :=
  .decoded ⟨"client_response", "query monitors", data, .null, true, ""⟩

/-- A notification of the subscribed event. -/
def focusEvent : Frame :=
  .decoded ⟨"event_subscription", "", .obj [("eventType", .str "focus_changed")], .null, true,
    "sub-1"⟩

/-- A reply to another command: the acknowledgement of the subscription. -/
def subscribeAck : Frame :=
  .decoded ⟨"client_response", "sub --events focus_changed", .obj [("subscriptionId", .str "sub-1")],
    .null, true, ""⟩

/-- A state with the given frames to arrive, every write succeeding,
and nothing written, shown or queried yet. -/
def freshWorld (frames : List Frame) : World :=
  ⟨frames, [], [], [], 0⟩

/-- The state `freshWorld` leaves after one successful query that consumed
every frame but `frames`. -/
def afterQuery (frames : List Frame) : World :=
  ⟨frames, [], ["query monitors"], [], 1⟩

/-- The topology of the specification, two workspaces flagged focused:
`[[1:false, 2:true], [3:true]]`. -/
def twoFocused : JMap :=
  payload [monitor [workspace "1" false, workspace "2" true], monitor [workspace "3" true]]

/-- The topology `{monitors:[{children:[]}]}`. -/
def noWorkspaces : JMap :=
  payload [monitor []]

/-- A `monitors` list in which a monitor without `children`, a monitor
whose `children` is a string, a focused workspace without a name and a
focused workspace whose name is a number precede the focused workspace
`7`; entries that are not mappings follow it. -/
def unselectableFirst : List JVal :=
  [.obj [("id", .str "DP-1")],
   .obj [("children", .str "none")],
   monitor [.obj [("hasFocus", .bool true)],
            .obj [("name", .num 5), ("hasFocus", .bool true)],
            workspace "7" true,
            .num 9],
   .str "DP-2",
   monitor [workspace "8" true]]

/-- A `monitors` list whose only focused workspace has no name. -/
def unselectableOnly : List JVal :=
  [monitor [workspace "1" false, .obj [("hasFocus", .bool true)]], .obj []]

/-- A `monitors` list in which an entry that is not a mapping lies between
a focused workspace without a name and the focused workspace `2`. -/
def numberBetween : List JVal :=
  [monitor [.obj [("hasFocus", .bool true)], .num 7, workspace "2" true]]

/-! ## Traversal of a well-shaped topology -/

theorem workspaceOf_eq_some {v : JVal} {x : String × Bool} (h : workspaceOf v = some x) :
    ∃ kvs, v = .obj kvs ∧ JMap.get kvs "name" = .str x.1 ∧
      JMap.get kvs "hasFocus" = .bool x.2 := by
  cases v with
  | obj kvs =>
    refine ⟨kvs, rfl, ?_⟩
    simp only [workspaceOf] at h
    split at h
    · simp only [Option.some.injEq] at h
      subst h
      exact ⟨by assumption, by assumption⟩
    · exact absurd h (by simp)
  | _ => simp [workspaceOf] at h

theorem workspacesOf_cons {v : JVal} {vs : List JVal} {ys : List (String × Bool)}
    (h : workspacesOf (v :: vs) = some ys) :
    ∃ x xs, workspaceOf v = some x ∧ workspacesOf vs = some xs ∧ ys = x :: xs := by
  simp only [workspacesOf] at h
  split at h
  · rename_i x xs hx hxs
    exact ⟨x, xs, hx, hxs, by simpa using h.symm⟩
  · exact absurd h (by simp)

theorem monitorOf_eq_some {v : JVal} {xs : List (String × Bool)} (h : monitorOf v = some xs) :
    ∃ kvs ws, v = .obj kvs ∧ JMap.get kvs "children" = .arr ws ∧ workspacesOf ws = some xs := by
  cases v with
  | obj kvs =>
    simp only [monitorOf] at h
    split at h
    · rename_i ws hws
      exact ⟨kvs, ws, rfl, hws, h⟩
    · exact absurd h (by simp)
  | _ => simp [monitorOf] at h

theorem monitorsOf_cons {v : JVal} {vs : List JVal} {t : Topology}
    (h : monitorsOf (v :: vs) = some t) :
    ∃ x xs, monitorOf v = some x ∧ monitorsOf vs = some xs ∧ t = x :: xs := by
  simp only [monitorsOf] at h
  split at h
  · rename_i x xs hx hxs
    exact ⟨x, xs, hx, hxs, by simpa using h.symm⟩
  · exact absurd h (by simp)

theorem scanWorkspaces_shape (ws : List JVal) :
    ∀ xs, workspacesOf ws = some xs →
      scanWorkspaces ws = Scan.ofChoice ((xs.find? (fun x => x.2)).map (fun x => x.1)) := by
  induction ws with
  | nil =>
    intro xs h
    simp only [workspacesOf, Option.some.injEq] at h
    subst h
    rfl
  | cons v vs ih =>
    intro ys h
    obtain ⟨x, xs, hx, hxs, rfl⟩ := workspacesOf_cons h
    obtain ⟨kvs, rfl, hname, hfocus⟩ := workspaceOf_eq_some hx
    obtain ⟨n, b⟩ := x
    cases b with
    | true =>
      simp [scanWorkspaces, JVal.asMap, hname, hfocus, JVal.boolOrFalse, JVal.asString,
        Scan.ofChoice]
    | false =>
      simp [scanWorkspaces, JVal.asMap, hfocus, JVal.boolOrFalse, ih xs hxs]

theorem firstFocused_cons (x : List (String × Bool)) (t : Topology) :
    firstFocused (x :: t) =
      match (x.find? (fun ws => ws.2)).map (fun ws => ws.1) with
      | some n => some n
      | none => firstFocused t := by
  simp only [firstFocused, List.flatten_cons, List.find?_append]
  cases x.find? (fun ws => ws.2) <;> simp

theorem scanMonitors_shape (ms : List JVal) :
    ∀ t, monitorsOf ms = some t → scanMonitors ms = Scan.ofChoice (firstFocused t) := by
  induction ms with
  | nil =>
    intro t h
    simp only [monitorsOf, Option.some.injEq] at h
    subst h
    rfl
  | cons v vs ih =>
    intro t h
    obtain ⟨x, xs, hx, hxs, rfl⟩ := monitorsOf_cons h
    obtain ⟨kvs, ws, rfl, hchildren, hws⟩ := monitorOf_eq_some hx
    rw [firstFocused_cons]
    simp only [scanMonitors, JVal.asMap, hchildren, JVal.asSlice, scanWorkspaces_shape ws x hws]
    cases (x.find? (fun ws => ws.2)).map (fun ws => ws.1) with
    | some n => rfl
    | none => simpa [Scan.ofChoice] using ih xs hxs

theorem topologyOf_eq_some {data : JMap} {t : Topology} (h : topologyOf data = some t) :
    ∃ ms, data.get "monitors" = .arr ms ∧ monitorsOf ms = some t := by
  simp only [topologyOf] at h
  split at h
  · rename_i ms hms
    exact ⟨ms, hms, h⟩
  · exact absurd h (by simp)

/-- On a payload of the documented shape the traversal neither panics nor
selects anything but the first focused workspace, if there is one. -/
theorem fetch_of_topology {w w1 : World} {data : JMap} {t : Topology}
    (hq : queryMonitors w = (.ok data, w1)) (ht : topologyOf data = some t) :
    fetchAndSetFocusedWorkspace w =
      .returned (loadIcon ((firstFocused t).getD "default") w1) := by
  obtain ⟨ms, hms, hmons⟩ := topologyOf_eq_some ht
  simp only [fetchAndSetFocusedWorkspace, hq, hms, JVal.asSlice, scanMonitors_shape ms t hmons]
  cases firstFocused t <;> rfl


/-! ## Results of `queryMonitors` -/

theorem queryMonitors_send_ok (w : World) (h : w.writeErrs.headD false = false) :
    queryMonitors w =
      ((queryMonitorsLoop "query monitors" w.inbound).1,
       { inbound := (queryMonitorsLoop "query monitors" w.inbound).2,
         writeErrs := w.writeErrs.tail,
         written := w.written ++ ["query monitors"],
         icons := w.icons,
         queries := w.queries + 1 }) := by
  simp only [queryMonitors, writeMessage, h]

theorem queryMonitors_queries (w : World) : (queryMonitors w).2.queries = w.queries + 1 := by
  cases h : w.writeErrs.headD false <;> simp only [queryMonitors, writeMessage, h]

/-- A decodable frame that is not a reply to `message` carrying a mapping
is passed over by the loop of `queryMonitors`. -/
theorem queryMonitorsLoop_skip (message : String) (m : ServerMessage) (rest : List Frame)
    (h : m.messageType = "client_response" → m.clientMessage = message → m.data.asMap = none) :
    queryMonitorsLoop message (.decoded m :: rest) = queryMonitorsLoop message rest := by
  simp only [queryMonitorsLoop, unmarshal]
  split
  · rename_i hc
    rw [h hc.1 hc.2]
    split <;> rfl
  · rfl

theorem queryMonitorsLoop_skip_append (message : String) (pre rest : List Frame)
    (h : ∀ f ∈ pre, ∃ m, f = .decoded m ∧
      (m.messageType = "client_response" → m.clientMessage = message → m.data.asMap = none)) :
    queryMonitorsLoop message (pre ++ rest) = queryMonitorsLoop message rest := by
  induction pre with
  | nil => rfl
  | cons f fs ih =>
    obtain ⟨m, rfl, hm⟩ := h f (List.mem_cons_self _ _)
    rw [List.cons_append, queryMonitorsLoop_skip message m _ hm]
    exact ih (fun g hg => h g (List.mem_cons_of_mem _ hg))

/-! ## The focused workspace (C1, C2) -/

theorem firstFocused_of_split {t : Topology} {before after : List (String × Bool)} {name : String}
    (hsplit : t.flatten = before ++ (name, true) :: after)
    (hbefore : ∀ x ∈ before, x.2 = false) : firstFocused t = some name := by
  have hnone : before.find? (fun ws => ws.2) = none := by
    rw [List.find?_eq_none]
    intro x hx
    simp [hbefore x hx]
  simp [firstFocused, hsplit, List.find?_append, hnone]

theorem firstFocused_of_unfocused {t : Topology} (h : ∀ x ∈ t.flatten, x.2 = false) :
    firstFocused t = none := by
  have hnone : t.flatten.find? (fun ws => ws.2) = none := by
    rw [List.find?_eq_none]
    intro x hx
    simp [h x hx]
  simp [firstFocused, hnone]

/-- C1: when the query yields a payload of the documented shape and `name`
is the first workspace flagged focused in monitor-then-workspace order
(every workspace before it is unfocused, whatever follows it),
`fetchAndSetFocusedWorkspace` returns having set the icon to `name`, once. -/
theorem first_focused_workspace_shown (w w1 : World) (data : JMap) (t : Topology)
    (before after : List (String × Bool)) (name : String)
    (hq : queryMonitors w = (.ok data, w1))
    (ht : topologyOf data = some t)
    (hsplit : t.flatten = before ++ (name, true) :: after)
    (hbefore : ∀ x ∈ before, x.2 = false) :
    fetchAndSetFocusedWorkspace w = .returned (loadIcon name w1) := by
  rw [fetch_of_topology hq ht, firstFocused_of_split hsplit hbefore]
  rfl

/-- Witness of C1: monitors `[[1:false, 2:true], [3:true]]` give the icon `2`. -/
theorem first_focused_workspace_shown_witness :
    fetchAndSetFocusedWorkspace (freshWorld [monitorsReply (.obj twoFocused)]) =
      .returned ⟨[], [], ["query monitors"], ["2"], 1⟩ :=
  first_focused_workspace_shown (freshWorld [monitorsReply (.obj twoFocused)]) (afterQuery [])
    twoFocused [[("1", false), ("2", true)], [("3", true)]] [("1", false)] [("3", true)] "2"
    rfl rfl rfl (by decide)

/-- C2: when `queryMonitors` returns an error, whichever of its three, or
returns a payload of the documented shape in which no workspace is flagged
focused, `fetchAndSetFocusedWorkspace` returns normally having set the icon
to `default`, once. -/
theorem fallback_to_default (w w1 : World) (r : Except QueryError JMap)
    (hq : queryMonitors w = (r, w1))
    (hr : (∃ e, r = .error e) ∨
      (∃ data t, r = .ok data ∧ topologyOf data = some t ∧ ∀ x ∈ t.flatten, x.2 = false)) :
    fetchAndSetFocusedWorkspace w = .returned (loadIcon "default" w1) := by
  rcases hr with ⟨e, rfl⟩ | ⟨data, t, rfl, ht, hno⟩
  · simp only [fetchAndSetFocusedWorkspace, hq]
  · rw [fetch_of_topology hq ht, firstFocused_of_unfocused hno]
    rfl

/-- Witness of C2: a failed send, a closed connection, an undecodable reply
and the topology `{monitors:[{children:[]}]}` each end with the icon `default`. -/
theorem fallback_to_default_witness :
    fetchAndSetFocusedWorkspace ⟨[monitorsReply (.obj twoFocused)], [true], [], [], 0⟩ =
        .returned ⟨[monitorsReply (.obj twoFocused)], [], ["query monitors"], ["default"], 1⟩ ∧
      fetchAndSetFocusedWorkspace (freshWorld [focusEvent]) =
        .returned ⟨[], [], ["query monitors"], ["default"], 1⟩ ∧
      fetchAndSetFocusedWorkspace (freshWorld [.malformed]) =
        .returned ⟨[], [], ["query monitors"], ["default"], 1⟩ ∧
      fetchAndSetFocusedWorkspace (freshWorld [monitorsReply (.obj noWorkspaces)]) =
        .returned ⟨[], [], ["query monitors"], ["default"], 1⟩ :=
  ⟨fallback_to_default _ ⟨[monitorsReply (.obj twoFocused)], [], ["query monitors"], [], 1⟩
      (.error .send) rfl (Or.inl ⟨_, rfl⟩),
   fallback_to_default _ (afterQuery []) (.error .read) rfl (Or.inl ⟨_, rfl⟩),
   fallback_to_default _ (afterQuery []) (.error .unmarshal) rfl (Or.inl ⟨_, rfl⟩),
   fallback_to_default _ (afterQuery []) (.ok noWorkspaces) rfl
      (Or.inr ⟨noWorkspaces, [[]], rfl, rfl, by decide⟩)⟩


/-! ## Correlation of the reply (C3, C4, C9) -/

/-- C3: after a successful send, if the frames that arrive are any number
of decodable frames none of which is a `client_response` with
`clientMessage` equal to `query monitors`, followed by a frame `R` that is
one and whose `data` is a mapping, then `queryMonitors` returns the data of
`R` and no error, having read up to `R` and no further. -/
theorem correlated_reply_returned (w : World) (pre rest : List Frame) (R : ServerMessage)
    (monitors : JMap)
    (hsend : w.writeErrs.headD false = false)
    (hin : w.inbound = pre ++ Frame.decoded R :: rest)
    (hpre : ∀ f ∈ pre, ∃ m, f = Frame.decoded m ∧
      ¬ (m.messageType = "client_response" ∧ m.clientMessage = "query monitors"))
    (hR : R.messageType = "client_response" ∧ R.clientMessage = "query monitors" ∧
      R.data = JVal.obj monitors) :
    queryMonitors w =
      (.ok monitors,
       { inbound := rest,
         writeErrs := w.writeErrs.tail,
         written := w.written ++ ["query monitors"],
         icons := w.icons,
         queries := w.queries + 1 }) := by
  have hskip : queryMonitorsLoop "query monitors" (pre ++ Frame.decoded R :: rest) =
      queryMonitorsLoop "query monitors" (Frame.decoded R :: rest) := by
    apply queryMonitorsLoop_skip_append
    intro f hf
    obtain ⟨m, hm, hne⟩ := hpre f hf
    exact ⟨m, hm, fun h1 h2 => absurd ⟨h1, h2⟩ hne⟩
  obtain ⟨h1, h2, h3⟩ := hR
  have hhit : queryMonitorsLoop "query monitors" (Frame.decoded R :: rest) =
      (.ok monitors, rest) := by
    simp [queryMonitorsLoop, unmarshal, h1, h2, h3, JVal.notNil, JVal.asMap]
  rw [queryMonitors_send_ok w hsend, hin, hskip, hhit]

/-- Witness of C3: two event notifications and the acknowledgement of the
subscription precede the reply. -/
theorem correlated_reply_returned_witness :
    queryMonitors (freshWorld [focusEvent, subscribeAck, focusEvent,
        monitorsReply (.obj twoFocused), focusEvent]) =
      (.ok twoFocused, ⟨[focusEvent], [], ["query monitors"], [], 1⟩) :=
  correlated_reply_returned _ [focusEvent, subscribeAck, focusEvent] [focusEvent]
    ⟨"client_response", "query monitors", .obj twoFocused, .null, true, ""⟩ twoFocused
    rfl rfl
    (by
      intro f hf
      simp only [List.mem_cons, List.mem_singleton, List.not_mem_nil, or_false] at hf
      rcases hf with rfl | rfl | rfl
      · exact ⟨_, rfl, by decide⟩
      · exact ⟨_, rfl, by decide⟩
      · exact ⟨_, rfl, by decide⟩)
    ⟨rfl, rfl, rfl⟩

/-- Counterexample to C4: a correlated reply whose data is null, and one
whose data is a list, draw no error from `queryMonitors`; it reads on and
returns the payload of a later reply. -/
theorem unusable_reply_no_error :
    queryMonitors (freshWorld [monitorsReply .null, monitorsReply (.obj twoFocused)]) =
        (.ok twoFocused, afterQuery []) ∧
      queryMonitors (freshWorld [monitorsReply (.arr []), monitorsReply (.obj twoFocused)]) =
        (.ok twoFocused, afterQuery []) :=
  ⟨rfl, rfl⟩

/-- C4, amended: once the send has succeeded, a correlated reply whose
data is null or not a mapping is discarded by `queryMonitors`, which keeps
waiting: the call ends as it would have had the frame not arrived.  It
ends in a read error when the connection closes right after that frame. -/
theorem unusable_reply_discarded (w : World) (R : ServerMessage) (rest : List Frame)
    (hsend : w.writeErrs.headD false = false)
    (hin : w.inbound = Frame.decoded R :: rest)
    (_hR : R.messageType = "client_response" ∧ R.clientMessage = "query monitors")
    (hdata : R.data.asMap = none) :
    queryMonitors w = queryMonitors { w with inbound := rest } ∧
      (rest = [] → (queryMonitors w).1 = .error .read) := by
  have hskip : queryMonitorsLoop "query monitors" (Frame.decoded R :: rest) =
      queryMonitorsLoop "query monitors" rest :=
    queryMonitorsLoop_skip _ R rest (fun _ _ => hdata)
  have heq : queryMonitors w = queryMonitors { w with inbound := rest } := by
    rw [queryMonitors_send_ok w hsend, queryMonitors_send_ok { w with inbound := rest } hsend,
      hin, hskip]
  refine ⟨heq, ?_⟩
  rintro rfl
  rw [heq, queryMonitors_send_ok { w with inbound := [] } hsend]
  rfl

/-- Witness of C4, amended: the reply with null data is passed over, and a
reply with a string as data followed by the close gives a read error. -/
theorem unusable_reply_discarded_witness :
    queryMonitors (freshWorld [monitorsReply .null, monitorsReply (.obj twoFocused)]) =
        queryMonitors (freshWorld [monitorsReply (.obj twoFocused)]) ∧
      (queryMonitors (freshWorld [monitorsReply (.str "none")])).1 = .error .read :=
  ⟨(unusable_reply_discarded (freshWorld [monitorsReply .null, monitorsReply (.obj twoFocused)])
      ⟨"client_response", "query monitors", .null, .null, true, ""⟩
      [monitorsReply (.obj twoFocused)] rfl rfl ⟨rfl, rfl⟩ rfl).1,
   (unusable_reply_discarded (freshWorld [monitorsReply (.str "none")])
      ⟨"client_response", "query monitors", .str "none", .null, true, ""⟩
      [] rfl rfl ⟨rfl, rfl⟩ rfl).2 rfl⟩

/-- C9: when a frame fails to decode while `queryMonitors` waits (every
frame before it was decodable and passed over), `queryMonitors` returns
an error at once leaving the frames after it unread, and
`fetchAndSetFocusedWorkspace` sets the icon to `default`, whatever those
frames are. -/
theorem decode_failure_ends_query (w : World) (pre rest : List Frame)
    (hsend : w.writeErrs.headD false = false)
    (hin : w.inbound = pre ++ Frame.malformed :: rest)
    (hpre : ∀ f ∈ pre, ∃ m, f = Frame.decoded m ∧
      (m.messageType = "client_response" → m.clientMessage = "query monitors" →
        m.data.asMap = none)) :
    queryMonitors w =
        (.error .unmarshal,
         { inbound := rest,
           writeErrs := w.writeErrs.tail,
           written := w.written ++ ["query monitors"],
           icons := w.icons,
           queries := w.queries + 1 }) ∧
      fetchAndSetFocusedWorkspace w =
        .returned
          { inbound := rest,
            writeErrs := w.writeErrs.tail,
            written := w.written ++ ["query monitors"],
            icons := w.icons ++ ["default"],
            queries := w.queries + 1 } := by
  have hq : queryMonitors w =
      (.error .unmarshal,
       { inbound := rest,
         writeErrs := w.writeErrs.tail,
         written := w.written ++ ["query monitors"],
         icons := w.icons,
         queries := w.queries + 1 }) := by
    rw [queryMonitors_send_ok w hsend, hin, queryMonitorsLoop_skip_append _ pre _ hpre]
    rfl
  refine ⟨hq, ?_⟩
  simp only [fetchAndSetFocusedWorkspace, hq, loadIcon]

/-- Witness of C9: the valid reply with a focused workspace is the very
next frame, and stays unread. -/
theorem decode_failure_ends_query_witness :
    queryMonitors (freshWorld [focusEvent, .malformed, monitorsReply (.obj twoFocused)]) =
        (.error .unmarshal, afterQuery [monitorsReply (.obj twoFocused)]) ∧
      fetchAndSetFocusedWorkspace
          (freshWorld [focusEvent, .malformed, monitorsReply (.obj twoFocused)]) =
        .returned ⟨[monitorsReply (.obj twoFocused)], [], ["query monitors"], ["default"], 1⟩ :=
  decode_failure_ends_query (freshWorld [focusEvent, .malformed, monitorsReply (.obj twoFocused)])
    [focusEvent] [monitorsReply (.obj twoFocused)] rfl rfl
    (by
      intro f hf
      simp only [List.mem_singleton] at hf
      subst hf
      exact ⟨_, rfl, fun h => absurd h (by decide)⟩)


/-! ## Event notifications (C5) -/

theorem fetch_queries (w : World) :
    (fetchAndSetFocusedWorkspace w).world.queries = w.queries + 1 := by
  have hq := queryMonitors_queries w
  unfold fetchAndSetFocusedWorkspace
  split
  · rename_i e w1 heq
    rw [heq] at hq
    exact hq
  · rename_i data w1 heq
    rw [heq] at hq
    split
    · exact hq
    · split <;> exact hq

/-- Counterexample to C5: with two event notifications and then the reply
on the stream, the read loop processes every frame and ends having made one
call of `queryMonitors`, not two: the second notification arrived during
the wait and was consumed there. -/
theorem event_during_wait_not_forwarded :
    eventFrames [focusEvent, focusEvent, monitorsReply (.obj twoFocused)] = 2 ∧
      readLoop 4 (freshWorld [focusEvent, focusEvent, monitorsReply (.obj twoFocused)]) =
        some (.returned ⟨[], [], ["query monitors"], ["2"], 1⟩) :=
  ⟨by decide, rfl⟩

/-- C5, amended: an `event_subscription` frame handed to `handleEvent` by
the read loop makes it run `fetchAndSetFocusedWorkspace`, which calls
`queryMonitors` exactly once; one that arrives while `queryMonitors` waits
for its reply is consumed by the wait, which goes on with the next frame,
and triggers nothing. -/
theorem event_triggers_one_query (m : ServerMessage) (w : World) (rest : List Frame)
    (hm : m.messageType = "event_subscription") :
    handleEvent (.decoded m) w = fetchAndSetFocusedWorkspace w ∧
      (handleEvent (.decoded m) w).world.queries = w.queries + 1 ∧
      queryMonitorsLoop "query monitors" (.decoded m :: rest) =
        queryMonitorsLoop "query monitors" rest := by
  have hh : handleEvent (.decoded m) w = fetchAndSetFocusedWorkspace w := by
    simp only [handleEvent, unmarshal, hm, if_true]
  refine ⟨hh, ?_, ?_⟩
  · rw [hh, fetch_queries]
  · apply queryMonitorsLoop_skip
    intro h
    rw [hm] at h
    exact absurd h (by decide)

/-- Witness of C5, amended. -/
theorem event_triggers_one_query_witness :
    handleEvent focusEvent (freshWorld [monitorsReply (.obj twoFocused)]) =
        fetchAndSetFocusedWorkspace (freshWorld [monitorsReply (.obj twoFocused)]) ∧
      (handleEvent focusEvent (freshWorld [monitorsReply (.obj twoFocused)])).world.queries =
        0 + 1 ∧
      queryMonitorsLoop "query monitors" [focusEvent, monitorsReply (.obj twoFocused)] =
        queryMonitorsLoop "query monitors" [monitorsReply (.obj twoFocused)] :=
  event_triggers_one_query
    ⟨"event_subscription", "", .obj [("eventType", .str "focus_changed")], .null, true, "sub-1"⟩
    (freshWorld [monitorsReply (.obj twoFocused)]) [monitorsReply (.obj twoFocused)] rfl

/-! ## Payloads that are not of the topology shape (C6) -/

/-- C6 fails on the code: on a reply whose data is a mapping without
`monitors`, with a `monitors` that is not a list, with a monitor entry that
is not a mapping, or with a child entry that is not a mapping,
`fetchAndSetFocusedWorkspace` panics and sets no icon. -/
theorem malformed_topology_panics :
    fetchAndSetFocusedWorkspace (freshWorld [monitorsReply (.obj [])]) =
        .panicked (afterQuery []) ∧
      fetchAndSetFocusedWorkspace (freshWorld [monitorsReply (.obj [("monitors", .str "none")])]) =
        .panicked (afterQuery []) ∧
      fetchAndSetFocusedWorkspace (freshWorld [monitorsReply (.obj (payload [.str "DP-1"]))]) =
        .panicked (afterQuery []) ∧
      fetchAndSetFocusedWorkspace
          (freshWorld [monitorsReply (.obj (payload [monitor [.str "1"]]))]) =
        .panicked (afterQuery []) :=
  ⟨rfl, rfl, rfl, rfl⟩


/-! ## The read loop (C7) -/

theorem queryMonitorsLoop_length (message : String) (fs : List Frame) :
    (queryMonitorsLoop message fs).2.length ≤ fs.length := by
  induction fs with
  | nil => simp [queryMonitorsLoop]
  | cons f rest ih =>
    have hstep : rest.length ≤ (f :: rest).length := Nat.le_succ _
    have hrec : (queryMonitorsLoop message rest).2.length ≤ (f :: rest).length :=
      Nat.le_trans ih hstep
    unfold queryMonitorsLoop
    split
    · exact hstep
    · split
      · split
        · split
          · exact hstep
          · exact hrec
        · exact hrec
      · exact hrec

theorem queryMonitors_inbound_length (w : World) :
    (queryMonitors w).2.inbound.length ≤ w.inbound.length := by
  cases h : w.writeErrs.headD false
  · rw [queryMonitors_send_ok w h]
    exact queryMonitorsLoop_length _ _
  · simp only [queryMonitors, writeMessage, h, le_refl]

theorem fetch_inbound_length (w : World) :
    (fetchAndSetFocusedWorkspace w).world.inbound.length ≤ w.inbound.length := by
  have hq := queryMonitors_inbound_length w
  unfold fetchAndSetFocusedWorkspace
  split
  · rename_i e w1 heq
    rw [heq] at hq
    exact hq
  · rename_i data w1 heq
    rw [heq] at hq
    split
    · exact hq
    · split <;> exact hq

theorem handleEvent_inbound_length (message : Frame) (w : World) :
    (handleEvent message w).world.inbound.length ≤ w.inbound.length := by
  unfold handleEvent
  split
  · exact le_refl _
  · split
    · exact fetch_inbound_length w
    · exact le_refl _

/-- The read loop ends within one iteration per frame still to arrive, and one more. -/
theorem readLoop_total (fuel : Nat) :
    ∀ w : World, w.inbound.length < fuel → ∃ r, readLoop fuel w = some r := by
  induction fuel with
  | zero => intro w h; exact absurd h (Nat.not_lt_zero _)
  | succ n ih =>
    intro w h
    unfold readLoop
    split
    · exact ⟨_, rfl⟩
    · rename_i message rest hin
      have hlen := handleEvent_inbound_length message { w with inbound := rest }
      split
      · exact ⟨_, rfl⟩
      · rename_i w1 hres
        rw [hres] at hlen
        apply ih
        rw [hin] at h
        simp only [Result.world, List.length_cons] at hlen h
        omega

/-- With the iteration bound it is given, `connectWebSocket` comes to an end. -/
theorem connectWebSocket_total (w : World) : ∃ r, connectWebSocket w = some r := by
  unfold connectWebSocket
  split
  · exact ⟨_, rfl⟩
  · split
    · exact ⟨_, rfl⟩
    · exact readLoop_total _ _ (Nat.lt_succ_self _)

theorem foldl_space_join (p : String) (es : List String) :
    ∀ acc : String,
      es.foldl (fun acc event => acc ++ (" " ++ event)) (p ++ acc) =
        p ++ String.intercalate.go acc " " es := by
  induction es with
  | nil => intro acc; rfl
  | cons e rest ih =>
    intro acc
    have hassoc : p ++ acc ++ (" " ++ e) = p ++ (acc ++ " " ++ e) := by
      simp only [String.append_assoc]
    simp only [List.foldl_cons, String.intercalate.go, hassoc, ih]

/-- C8: for a non-empty list of event names `subscribeToEvents` returns
having called `WriteMessage` exactly once, with the text `sub --events `
followed by the names in list order separated by single spaces. -/
theorem subscribe_command (events : List String) (w : World) (h : events ≠ []) :
    subscribeToEvents events w =
      .returned
        { w with
          written := w.written ++ ["sub --events " ++ " ".intercalate events],
          writeErrs := w.writeErrs.tail } := by
  cases events with
  | nil => exact absurd rfl h
  | cons e0 rest =>
    simp only [subscribeToEvents, writeMessage, foldl_space_join, String.intercalate]

/-- Witness of C8: the subscription `connectWebSocket` makes. -/
theorem subscribe_command_witness :
    subscribeToEvents ["focus_changed"] (afterQuery []) =
      .returned ⟨[], [], ["query monitors", "sub --events focus_changed"], [], 1⟩ :=
  subscribe_command ["focus_changed"] (afterQuery []) (by decide)

/-! ## Entries that cannot be selected (C10) -/

theorem Scan.ofVisits_append (xs ys : List Visit) :
    Scan.ofVisits (xs ++ ys) =
      match Scan.ofVisits xs with
      | .found name => .found name
      | .panic => .panic
      | .notFound => Scan.ofVisits ys := by
  induction xs with
  | nil => simp only [List.nil_append, Scan.ofVisits]
  | cons x rest ih =>
    cases x with
    | selects name => rfl
    | passes => simpa [Scan.ofVisits] using ih
    | notMapping => rfl

theorem scanWorkspaces_visits (ws : List JVal) :
    scanWorkspaces ws = Scan.ofVisits (ws.map visitWorkspace) := by
  induction ws with
  | nil => rfl
  | cons v vs ih =>
    cases v with
    | obj kvs =>
      simp only [scanWorkspaces, JVal.asMap, List.map_cons, visitWorkspace]
      generalize JMap.get kvs "hasFocus" = hf
      generalize JMap.get kvs "name" = nm
      cases hf with
      | bool b =>
        cases b <;> cases nm <;>
          simp [JVal.boolOrFalse, JVal.asString, ih, Scan.ofVisits]
      | _ => simp [JVal.boolOrFalse, ih, Scan.ofVisits]
    | _ => rfl

theorem scanMonitors_visits (ms : List JVal) :
    scanMonitors ms = Scan.ofVisits (visits ms) := by
  induction ms with
  | nil => rfl
  | cons v vs ih =>
    have hcons : visits (v :: vs) = visitMonitor v ++ visits vs := by simp [visits]
    rw [hcons, Scan.ofVisits_append]
    cases v with
    | obj kvs =>
      simp only [scanMonitors, JVal.asMap, visitMonitor]
      generalize JMap.get kvs "children" = ch
      cases ch with
      | arr ws =>
        simp only [JVal.asSlice, scanWorkspaces_visits ws]
        cases Scan.ofVisits (ws.map visitWorkspace) <;> simp [ih]
      | _ => simpa [JVal.asSlice, Scan.ofVisits] using ih
    | _ => rfl

theorem Scan.ofVisits_passes (xs : List Visit) (h : ∀ v ∈ xs, v = Visit.passes) :
    Scan.ofVisits xs = .notFound := by
  induction xs with
  | nil => rfl
  | cons x rest ih =>
    have hx := h x (List.mem_cons_self _ _)
    subst hx
    exact ih (fun v hv => h v (List.mem_cons_of_mem _ hv))

/-- Counterexample to C10: with an entry that is not a mapping between a
focused workspace without a name and the focused workspace `2`, the
traversal does not continue to `2`: `fetchAndSetFocusedWorkspace` panics
and sets no icon. -/
theorem unselectable_then_not_mapping_panics :
    visits numberBetween = [.passes, .notMapping, .selects "2"] ∧
      fetchAndSetFocusedWorkspace (freshWorld [monitorsReply (.obj (payload numberBetween))]) =
        .panicked (afterQuery []) :=
  ⟨rfl, rfl⟩

/-- C10, amended: when the query yields a payload whose `monitors` is a
list, and every entry the traversal reaches before it selects is a mapping
that is passed over (a workspace that is not focused, or focused with a
name that is missing or not a string; a monitor whose `children` is missing
or not a list has no entry visited), `fetchAndSetFocusedWorkspace` returns
having set the icon to the name of the first workspace with `hasFocus` true
and a string `name`, whatever the entries after it are; when every entry
reached is passed over, it returns having set the icon to `default`. -/
theorem unselectable_entries_skipped (w w1 : World) (data : JMap) (monitors : List JVal)
    (hq : queryMonitors w = (.ok data, w1))
    (hm : data.get "monitors" = .arr monitors) :
    (∀ before name after, visits monitors = before ++ Visit.selects name :: after →
        (∀ v ∈ before, v = Visit.passes) →
        fetchAndSetFocusedWorkspace w = .returned (loadIcon name w1)) ∧
      ((∀ v ∈ visits monitors, v = Visit.passes) →
        fetchAndSetFocusedWorkspace w = .returned (loadIcon "default" w1)) := by
  have hfetch : fetchAndSetFocusedWorkspace w =
      match Scan.ofVisits (visits monitors) with
      | .found name => .returned (loadIcon name w1)
      | .panic => .panicked w1
      | .notFound => .returned (loadIcon "default" w1) := by
    simp only [fetchAndSetFocusedWorkspace, hq, hm, JVal.asSlice, scanMonitors_visits]
  constructor
  · intro before name after hsplit hbefore
    rw [hfetch, hsplit, Scan.ofVisits_append, Scan.ofVisits_passes before hbefore]
    rfl
  · intro hall
    rw [hfetch, Scan.ofVisits_passes _ hall]

/-- Witness of C10, amended: past a monitor without `children`, a monitor
whose `children` is a string, a focused workspace without a name and one
whose name is a number, the icon is that of the focused workspace `7`,
although entries that are not mappings follow it; when the only focused
workspace has no name, it is `default`. -/
theorem unselectable_entries_skipped_witness :
    fetchAndSetFocusedWorkspace (freshWorld [monitorsReply (.obj (payload unselectableFirst))]) =
        .returned ⟨[], [], ["query monitors"], ["7"], 1⟩ ∧
      fetchAndSetFocusedWorkspace (freshWorld [monitorsReply (.obj (payload unselectableOnly))]) =
        .returned ⟨[], [], ["query monitors"], ["default"], 1⟩ :=
  ⟨(unselectable_entries_skipped
      (freshWorld [monitorsReply (.obj (payload unselectableFirst))]) (afterQuery [])
      (payload unselectableFirst) unselectableFirst rfl rfl).1 [.passes, .passes] "7" [.notMapping, .notMapping, .selects "8"] rfl
      (by
        intro v hv
        simp only [List.mem_cons, List.mem_singleton, List.not_mem_nil, or_false, or_self] at hv
        exact hv),
   (unselectable_entries_skipped
      (freshWorld [monitorsReply (.obj (payload unselectableOnly))]) (afterQuery [])
      (payload unselectableOnly) unselectableOnly rfl rfl).2
      (by
        intro v hv
        have hvis : visits unselectableOnly = [.passes, .passes] := rfl
        rw [hvis] at hv
        simp only [List.mem_cons, List.mem_singleton, List.not_mem_nil, or_false, or_self] at hv
        exact hv)⟩

end GlazeTray
